import Mathlib

/-
  Verification of the openclaw voice-ingestion pipeline.

  Shallow embedding of:
  - src/audio-listener/assemblyai_transcriber.py
      (_api_request, submit_and_process duration gate, retry_failed_speaker_id)
  - src/oasis/audio-listener/speaker_verify.py
      (UnknownSpeakerTracker._check_candidate, auto_threshold)
  - src/oasis/voice/scripts/pipeline-orchestrator.py
      (determine_status, get_duration, build_job_entry,
       convert_to_curator_format, sync_to_curator, scan_once per-transcript body)

  Python floats are modelled as rationals; filesystem effects are modelled as
  explicit state records; wall-clock values are passed in as parameters.
-/

namespace OpenClaw

/-! ## Transcription client retry wrapper
    (assemblyai_transcriber.py, AssemblyAITranscriber._api_request, lines 98-133)

    MAX_RETRIES = 3, RETRY_BASE_DELAY = 5.  The outcome of each HTTP attempt
    is supplied by an oracle: success, an HTTPError with a status code, or any
    other exception (network error). -/

inductive ApiOutcome where
  | success
  | httpErr (code : Nat)
  | netErr
deriving DecidableEq, Repr

inductive ApiResult where
  | ok
  | raisedHttp (code : Nat)
  | raisedNet
  | noResult
deriving DecidableEq, Repr

/-- the result of the request together with the backoff delays slept and the
number of attempts performed -/
structure ApiRun where
  result : ApiResult
  delays : List Nat
  attempts : Nat
deriving DecidableEq, Repr

/-- the for-loop of _api_request: `remaining` counts the loop iterations left
(3 - attempt, kept structural for the recursion); falling off the loop (all
three attempts consumed by the 429/5xx branch) returns Python None, modelled
as `ApiResult.noResult`.  MAX_RETRIES = 3, RETRY_BASE_DELAY = 5 -/
def apiRequestGo (outcomes : Nat → ApiOutcome) :
    Nat → Nat → List Nat → ApiRun
  | 0, attempt, delays => ⟨.noResult, delays, attempt⟩
  | remaining + 1, attempt, delays =>
    match outcomes attempt with
    | .success => ⟨.ok, delays, attempt + 1⟩
    | .httpErr c =>
        if c = 429 ∨ c ≥ 500 then
          apiRequestGo outcomes remaining (attempt + 1) (delays ++ [5 * 2 ^ attempt])
        else ⟨.raisedHttp c, delays, attempt + 1⟩
    | .netErr =>
        if attempt < 3 - 1 then
          apiRequestGo outcomes remaining (attempt + 1) (delays ++ [5 * 2 ^ attempt])
        else ⟨.raisedNet, delays, attempt + 1⟩

/-- _api_request entered at attempt 0 with no delays slept yet -/
def apiRequest (outcomes : Nat → ApiOutcome) : ApiRun :=
  apiRequestGo outcomes 3 0 []

/-- a result counts as a failure surfaced to the caller when an exception is
raised; a plain None return is not a raised failure -/
def ApiResult.isRaised : ApiResult → Bool
  | .raisedHttp _ => true
  | .raisedNet => true
  | _ => false

/-! ## Speaker-identification retry loop
    (assemblyai_transcriber.py, AssemblyAITranscriber.retry_failed_speaker_id,
     lines 449-543)

    The per-transcript body is modelled as a pure decision function.  The
    transcript JSON fields the loop reads are collected in `RData`; the
    identify_all_speakers call is abstracted as an oracle `identify`;
    `active` models membership of data["file"] in the active-jobs snapshot
    and `audioExists` models (inbox_dir / audio_file).exists(). -/

structure RData where
  pipeline_status : String
  unidentified : List String
  file : String
  speaker_id_retry_count : Nat
  speaker_id_error : Option String
deriving DecidableEq, Repr

/-- what one cycle does to one transcript file: `skip` writes nothing,
`giveUp d` rewrites the file with `d` (max-retries transition), `rerun d`
re-runs identification and rewrites the file with `d` (also deleting the
adjacent .synced marker) -/
inductive RetryAction where
  | skip
  | giveUp (d : RData)
  | rerun (d : RData)
deriving DecidableEq, Repr

def RetryAction.isRerun : RetryAction → Bool
  | .rerun _ => true
  | _ => false

/-- lines 486-493: needs_retry is set for speaker_id_failed / transcribed, and
additionally, under force_all, for complete transcripts with a non-empty
unidentified list -/
def needsRetry (forceAll : Bool) (d : RData) : Bool :=
  (d.pipeline_status = "speaker_id_failed" || d.pipeline_status = "transcribed")
    || (forceAll && d.pipeline_status = "complete" && !d.unidentified.isEmpty)

/-- lines 503-504: the max-retries rewrite -/
def giveUpData (d : RData) : RData :=
  { d with pipeline_status := "complete_no_speaker_id",
           speaker_id_error := some "max_retries_exceeded" }

/-- lines 522-523: after identify_all_speakers, a leftover "transcribed"
status is promoted to "complete" -/
def finishIdentify (d : RData) : RData :=
  if d.pipeline_status = "transcribed" then { d with pipeline_status := "complete" } else d

/-- the decision the loop takes for one parsed transcript (lines 482-537);
max_retries is the hardcoded local 10 -/
def retryDecision (forceAll active audioExists : Bool) (identify : RData → RData)
    (d : RData) : RetryAction :=
  if active then .skip
  else if !needsRetry forceAll d then .skip
  else if d.speaker_id_retry_count ≥ 10 then
    if d.pipeline_status ≠ "complete_no_speaker_id" then .giveUp (giveUpData d) else .skip
  else if d.file = "" || !audioExists then .skip
  else .rerun (finishIdentify (identify
    { d with speaker_id_retry_count := d.speaker_id_retry_count + 1 }))

/-! ## submit_and_process duration gate
    (assemblyai_transcriber.py, _get_wav_duration lines 259-266 and
     submit_and_process lines 268-304)

    _get_wav_duration returns None when the WAV header cannot be read; this is
    modelled by the `duration : Option ℚ` parameter.  The gate decides between
    refusing (no API key), writing a skipped_too_short transcript, or
    proceeding to upload/submit/poll. -/

inductive SubmitAction where
  | noKey
  | skipShort (tryEmbedding : Bool)
  | transcribe
deriving DecidableEq, Repr

/-- lines 277-304: the control flow of submit_and_process up to the upload;
`minTranscribe` is MIN_TRANSCRIBE_SECONDS (default 10); the skipped_too_short
transcript additionally attempts an embedding extraction when duration >= 1.0 -/
def submitGate (hasKey : Bool) (duration : Option ℚ) (minTranscribe : ℚ) : SubmitAction :=
  if !hasKey then .noKey
  else
    match duration with
    | some dur => if dur < minTranscribe then .skipShort (dur ≥ 1) else .transcribe
    | none => .transcribe

/-! ## Unknown-speaker tracker candidate gate
    (speaker_verify.py, UnknownSpeakerTracker._check_candidate lines 534-600,
     compute_self_consistency lines 453-474, auto_threshold lines 477-490;
     scripts/voice/unknown_speaker_tracker.py carries the same gates in
     _check_candidate_ready/_create_candidate)

    Embeddings are lists of rationals.  np.var(embeddings, axis=0).mean() is
    rational arithmetic and is computed exactly.  Pairwise cosine distances
    involve real square roots (vector norms), so the mean pairwise cosine
    distance is supplied as the parameter `scVal`; the None-for-fewer-than-two
    -samples behaviour of compute_self_consistency is kept. -/

/-- arithmetic mean of a list of rationals (np.mean); empty input never occurs
on the paths used -/
def qmean (xs : List ℚ) : ℚ := xs.sum / (xs.length : ℚ)

/-- population variance of one coordinate across the samples (one entry of
np.var(embeddings, axis=0)) -/
def colVar (col : List ℚ) : ℚ :=
  qmean (col.map (fun x => (x - qmean col) ^ 2))

/-- np.var(embeddings, axis=0).mean(): per-dimension population variance,
averaged over the dimensions (dimension count taken from the first sample) -/
def meanVariance (embs : List (List ℚ)) : ℚ :=
  let dim := (embs.headD []).length
  qmean ((List.range dim).map (fun j => colVar (embs.map (fun e => e.getD j 0))))

/-- Python round-half-to-even on integers scaled by 10^ndigits -/
def roundHalfEven (x : ℚ) : ℤ :=
  let f := ⌊x⌋
  let r := x - (f : ℚ)
  if r < 1 / 2 then f
  else if r > 1 / 2 then f + 1
  else if f % 2 = 0 then f else f + 1

/-- Python round(x, ndigits) over rationals -/
def pyRound (ndigits : Nat) (x : ℚ) : ℚ :=
  (roundHalfEven (x * 10 ^ ndigits) : ℚ) / 10 ^ ndigits

/-- compute_self_consistency returns None for fewer than two embeddings and
otherwise the mean pairwise cosine distance, supplied here as `scVal` -/
def compute_self_consistency (embs : List (List ℚ)) (scVal : ℚ) : Option ℚ :=
  if embs.length < 2 then none else some scVal

/-- auto_threshold: 3x the self-consistency clamped to [0.20, 0.50] and rounded
to 2 digits; 0.35 when consistency is None -/
def auto_threshold (consistency : Option ℚ) : ℚ :=
  match consistency with
  | none => 7 / 20
  | some c => pyRound 2 (max (1 / 5) (min (1 / 2) (c * 3)))

/-- the candidate JSON fields relevant to the quality-gate invariant -/
structure Candidate where
  speaker_id : String
  num_samples : Nat
  variance : ℚ
  self_consistency : Option ℚ
  autoThreshold : ℚ
  status : String
  suggested_name : Option String
deriving DecidableEq, Repr

/-- _check_candidate: returns the candidate file written, or none when any
gate rejects.  `candidateExists` models candidate_file.exists(); `embs` are
the cluster's embeddings (one per .npy file); min_samples is the hardcoded
10; `maxVariance` is UNKNOWN_SPEAKER_MAX_VARIANCE (default 20.0) -/
def check_candidate (speaker_id : String) (candidateExists : Bool)
    (embs : List (List ℚ)) (scVal : ℚ) (maxVariance : ℚ) : Option Candidate :=
  if embs.length < 10 then none
  else if candidateExists then none
  else
    let variance := meanVariance embs
    if variance > maxVariance then none
    else
      let sc := compute_self_consistency embs scVal
      if (match sc with | some c => decide (c > 3 / 20) | none => false) then none
      else
        some { speaker_id := speaker_id
               num_samples := embs.length
               variance := variance
               self_consistency := sc.map (pyRound 4)
               autoThreshold := match sc with | some _ => auto_threshold sc | none => 1 / 4
               status := "pending_review"
               suggested_name := none }

/-! ## Pipeline orchestrator
    (pipeline-orchestrator.py)

    Timestamps are modelled as parsed UTC datetimes (`DT`); ISO strings that
    would fail datetime.fromisoformat are modelled as an absent timestamp,
    since both fall back to `now` in convert_to_curator_format.  The per-stem
    slice of the filesystem is an explicit record; curator files are modelled
    by the only fields the orchestrator re-reads (directory, name, audioPath).
-/

/-- a parsed UTC datetime, enough for the strftime patterns used -/
structure DT where
  year : Nat
  month : Nat
  day : Nat
  hour : Nat
  minute : Nat
  second : Nat
deriving DecidableEq, Repr

/-- two-digit zero padding (strftime %m, %d, %H, %M, %S) -/
def pad2 (n : Nat) : String :=
  if n < 10 then "0" ++ Nat.repr n else Nat.repr n

/-- four-digit zero padding (strftime %Y) -/
def pad4 (n : Nat) : String :=
  if n < 10 then "000" ++ Nat.repr n
  else if n < 100 then "00" ++ Nat.repr n
  else if n < 1000 then "0" ++ Nat.repr n
  else Nat.repr n

/-- ts.strftime("%Y/%m/%d") -/
def dateDirOf (t : DT) : String :=
  pad4 t.year ++ "/" ++ pad2 t.month ++ "/" ++ pad2 t.day

/-- ts.strftime("%H-%M-%S") -/
def timePartOf (t : DT) : String :=
  pad2 t.hour ++ "-" ++ pad2 t.minute ++ "-" ++ pad2 t.second

/-- one transcript segment; `startT`/`endT` are the start/end fields in
seconds (end is a reserved word in Lean) -/
structure Segment where
  startT : ℚ
  endT : ℚ
  text : String
  speaker : String
  speaker_name : Option String
deriving DecidableEq, Repr

/-- the fields of a done/ transcript JSON that the orchestrator reads -/
structure TData where
  pipeline_status : String
  segments : List Segment
  aai_status : Option String
  aai_audio_duration : Option ℚ
  identifiedKeys : List String
  unidentified : List String
  diarization : Bool
  file : String
  timestamp : Option DT
  speaker_id_error : Option String
  speaker_id_retry_count : Nat
deriving DecidableEq, Repr

/-- maximum of a list of rationals, 0 for the empty list (matches the two
fallback branches of get_duration) -/
def listMaxQ : List ℚ → ℚ
  | [] => 0
  | x :: xs => xs.foldl max x

/-- get_duration (lines 75-83): assemblyai.audio_duration when truthy
(non-zero), else the largest segment end, else 0 -/
def get_duration (d : TData) : ℚ :=
  match d.aai_audio_duration with
  | some x => if x ≠ 0 then x else listMaxQ (d.segments.map (fun s => s.endT))
  | none => listMaxQ (d.segments.map (fun s => s.endT))

/-- get_source (lines 86-90) -/
def get_source (stem : String) : String :=
  if stem.startsWith "gdrive_" then "watch_folder" else "microphone"

/-- determine_status (lines 93-127) -/
def determine_status (d : TData) : String :=
  if d.pipeline_status = "skipped_too_short" then "skipped"
  else if d.pipeline_status = "transcribed" then "speaker_id_pending"
  else if d.pipeline_status = "speaker_id_failed" then "speaker_id_failed"
  else if d.aai_status = some "error" then "failed"
  else if d.pipeline_status = "complete" ∨ d.pipeline_status = "complete_no_speaker_id" then
    if d.unidentified.isEmpty then "complete" else "pending_curator"
  else if d.pipeline_status = "" ∧ ¬ d.segments.isEmpty then "complete"
  else "processing"

/-- the orchestrator's job entry for one clip -/
structure JobEntry where
  source : String
  audioFile : String
  createdAt : DT
  status : String
  pipelineStatus : String
  identified : List String
  unidentified : List String
  stages_ingested : Option DT
  stages_transcribed : Option DT
  stages_speaker_id : Option DT
  stages_curator_synced : Option DT
  playbackFile : Option String
  curatorPath : Option String
  error : Option String
deriving DecidableEq, Repr

/-- the fresh dict created by build_job_entry when no entry exists
(lines 135-145); keys the dict does not yet carry are modelled as none/"" -/
def defaultEntry (stem : String) (d : TData) (now : DT) : JobEntry :=
  { source := get_source stem
    audioFile := stem ++ ".wav"
    createdAt := d.timestamp.getD now
    status := ""
    pipelineStatus := ""
    identified := []
    unidentified := []
    stages_ingested := none
    stages_transcribed := none
    stages_speaker_id := none
    stages_curator_synced := none
    playbackFile := none
    curatorPath := none
    error := none }

/-- build_job_entry (lines 130-171); `playbackExists` models
(PLAYBACK_DIR / stem.wav).exists() -/
def build_job_entry (stem : String) (d : TData) (existing : Option JobEntry)
    (playbackExists : Bool) (now : DT) : JobEntry :=
  let e0 := existing.getD (defaultEntry stem d now)
  { e0 with
    status := determine_status d
    pipelineStatus := d.pipeline_status
    identified := d.identifiedKeys
    unidentified := d.unidentified
    error := d.speaker_id_error
    stages_ingested :=
      if e0.stages_ingested = none then some (d.timestamp.getD now) else e0.stages_ingested
    stages_transcribed :=
      if d.aai_status = some "completed" ∧ e0.stages_transcribed = none then some now
      else e0.stages_transcribed
    stages_speaker_id :=
      if (d.pipeline_status = "complete" ∨ d.pipeline_status = "complete_no_speaker_id"
            ∨ d.pipeline_status = "speaker_id_failed") ∧ e0.stages_speaker_id = none
      then some now else e0.stages_speaker_id
    playbackFile := if playbackExists then some (stem ++ ".wav") else none }

/-- whitespace stripping on both ends of a character list -/
def stripChars (l : List Char) : List Char :=
  ((l.dropWhile Char.isWhitespace).reverse.dropWhile Char.isWhitespace).reverse

/-- Python str.strip() for whitespace -/
def pyStrip (s : String) : String := (stripChars s.data).asString

/-- Python " ".join(...) -/
def joinSpace : List String → String
  | [] => ""
  | [x] => x
  | x :: xs => x ++ " " ++ joinSpace xs

/-- the full_text computation of convert_to_curator_format (lines 178-179):
" ".join(seg text stripped).strip() -/
def curatorFullText (segs : List Segment) : String :=
  pyStrip (joinSpace (segs.map (fun s => pyStrip s.text)))

/-- a published curator JSON, reduced to the fields the orchestrator re-reads
when scanning for an existing file for the same audio -/
structure CurFile where
  dateDir : String
  name : String
  audioPath : String
deriving DecidableEq, Repr

/-- membership test for date_dir.glob(f"{time_part}*.json") -/
def globMatch (dd tp : String) (f : CurFile) : Bool :=
  f.dateDir = dd && tp.isPrefixOf f.name && f.name.endsWith ".json"

/-- the collision name f"{time_part}{sfx}-{counter}.json" -/
def counterName (tp sfx : String) (c : Nat) : String :=
  tp ++ sfx ++ "-" ++ Nat.repr c ++ ".json"

/-- the while-loop of lines 290-293: starting from counter 1, the first
counter whose file name is free; the loop terminates at the least free
counter, which by pigeonhole lies within names.length + 1 -/
def freshCounter (tp sfx : String) (names : List String) : Nat :=
  match ((List.range (names.length + 1)).map (fun i => i + 1)).find?
      (fun c => !names.contains (counterName tp sfx c)) with
  | some c => c
  | none => 0

/-- the decimal digit characters of a number, most significant first; a
fuel-free reference form of Nat.toDigits used to reason about the collision
counter names -/
def decChars (n : Nat) : List Char :=
  if _h : n < 10 then [Nat.digitChar n]
  else decChars (n / 10) ++ [Nat.digitChar (n % 10)]
decreasing_by
  exact Nat.div_lt_self (by omega) (by omega)

/-- out_file.write_text: replace any same-named file in the directory -/
def writeCur (files : List CurFile) (dd nm ap : String) : List CurFile :=
  (files.filter (fun f => !(f.dateDir = dd && f.name = nm))) ++ [⟨dd, nm, ap⟩]

/-- the state the per-stem slice of sync_to_curator returns -/
structure SyncOut where
  path : Option String
  curator : List CurFile
  pending : List CurFile
  marker : Bool
deriving DecidableEq, Repr

/-- ts = fromisoformat(timestamp) or now, then strftime("%Y/%m/%d") -/
def syncDD (d : TData) (now : DT) : String := dateDirOf (d.timestamp.getD now)

/-- ts.strftime("%H-%M-%S") for the same ts -/
def syncTP (d : TData) (now : DT) : String := timePartOf (d.timestamp.getD now)

/-- the "-diarized" name suffix -/
def syncSfx (d : TData) : String := if d.diarization then "-diarized" else ""

/-- the file names already present in the target date directory -/
def syncNames (d : TData) (now : DT) (curator : List CurFile) : List String :=
  (curator.filter (fun f => f.dateDir = syncDD d now)).map (fun f => f.name)

/-- the collision-free base name f"{time_part}{sfx}.json" -/
def syncBase (d : TData) (now : DT) : String :=
  syncTP d now ++ syncSfx d ++ ".json"

/-- lines 289-293: the fresh-name choice — the base name when free, else the
first countered name that does not exist -/
def syncOutName (d : TData) (now : DT) (curator : List CurFile) : String :=
  if (syncNames d now curator).contains (syncBase d now) then
    counterName (syncTP d now) (syncSfx d)
      (freshCounter (syncTP d now) (syncSfx d) (syncNames d now curator))
  else syncBase d now

/-- sync_to_curator (lines 242-301): empty transcript text returns None
without writing; otherwise re-use an active-dir file for the same audio,
else promote a _pending/ file, else pick base name or collision-append a
counter; finally write the file and touch the marker -/
def sync_to_curator (d : TData) (now : DT) (curator pending : List CurFile)
    (marker : Bool) : SyncOut :=
  if curatorFullText d.segments = "" then ⟨none, curator, pending, marker⟩
  else
    match (curator.filter (fun f => globMatch (syncDD d now) (syncTP d now) f
        && f.name ≠ "conversations.json")).find? (fun f => f.audioPath = d.file) with
    | some f =>
        ⟨some (syncDD d now ++ "/" ++ f.name),
         writeCur curator (syncDD d now) f.name d.file, pending, true⟩
    | none =>
      match (pending.filter (globMatch (syncDD d now) (syncTP d now))).find?
          (fun f => f.audioPath = d.file) with
      | some pf =>
          ⟨some (syncDD d now ++ "/" ++ pf.name),
           writeCur curator (syncDD d now) pf.name d.file,
           pending.filter (fun g => !(g.dateDir = pf.dateDir && g.name = pf.name)),
           true⟩
      | none =>
          ⟨some (syncDD d now ++ "/" ++ syncOutName d now curator),
           writeCur curator (syncDD d now) (syncOutName d now curator) d.file,
           pending, true⟩

/-- the filesystem state relevant to one clip stem -/
structure StemFS where
  inboxWav : Bool
  playbackWav : Bool
  marker : Bool
  curator : List CurFile
  pending : List CurFile
deriving DecidableEq, Repr

structure StepOut where
  entry : JobEntry
  fs : StemFS
deriving DecidableEq, Repr

/-- the audio-lifecycle action of scan_once (lines 362-374): on the first
transition out of queued/processing, move the inbox WAV to playback/ when the
transcript duration reaches MIN_PLAYBACK_DURATION and delete it otherwise -/
def audioLifecycle (minPlayback : ℚ) (stem : String) (d : TData) (ne : JobEntry)
    (oldStatus : Option String) (fs : StemFS) : JobEntry × StemFS :=
  if (ne.status ≠ "queued" ∧ ne.status ≠ "processing") ∧
      (oldStatus = some "queued" ∨ oldStatus = some "processing" ∨ oldStatus = none) then
    if fs.inboxWav then
      if get_duration d ≥ minPlayback then
        ({ ne with playbackFile := some (stem ++ ".wav") },
         { fs with inboxWav := false, playbackWav := true })
      else (ne, { fs with inboxWav := false })
    else (ne, fs)
  else (ne, fs)

/-- the curator gate of scan_once (lines 377-387): a job at "complete" with no
marker is synced; with a marker it is just flipped to curator_synced -/
def curatorGate (d : TData) (now : DT) (ne1 : JobEntry) (fs1 : StemFS) : StepOut :=
  if ne1.status = "complete" then
    if fs1.marker = false then
      match sync_to_curator d now fs1.curator fs1.pending fs1.marker with
      | ⟨some p, cur, pend, mk⟩ =>
          ⟨{ ne1 with status := "curator_synced", curatorPath := some p,
                      stages_curator_synced := some now },
           { fs1 with curator := cur, pending := pend, marker := mk }⟩
      | ⟨none, cur, pend, mk⟩ =>
          ⟨ne1, { fs1 with curator := cur, pending := pend, marker := mk }⟩
    else ⟨{ ne1 with status := "curator_synced" }, fs1⟩
  else ⟨ne1, fs1⟩

/-- the status-transition actions of scan_once (lines 359-393): audio
lifecycle move/delete, then the curator gate -/
def stepActions (minPlayback : ℚ) (stem : String) (d : TData) (ne : JobEntry)
    (oldStatus : Option String) (fs : StemFS) (now : DT) : StepOut :=
  let p1 := audioLifecycle minPlayback stem d ne oldStatus fs
  curatorGate d now p1.1 p1.2

/-- the body of the done/ loop of scan_once for one stem whose transcript
parsed (lines 335-393): build the new entry, take the skip/re-evaluate
branch, then act on status transitions -/
def processStem (minPlayback : ℚ) (stem : String) (d : TData)
    (existing : Option JobEntry) (fs : StemFS) (now : DT) : StepOut :=
  let ne0 := build_job_entry stem d existing fs.playbackWav now
  let oldStatus := existing.map (fun e => e.status)
  match existing with
  | some e =>
      if e.status = ne0.status then
        if oldStatus = some "curator_synced" ∧ fs.marker = false then
          stepActions minPlayback stem d (build_job_entry stem d none fs.playbackWav now)
            oldStatus fs now
        else ⟨ne0, fs⟩
      else stepActions minPlayback stem d ne0 oldStatus fs now
  | none => stepActions minPlayback stem d ne0 oldStatus fs now

/-! ## Helper lemmas -/

/-- the attempt counter of the retry loop never exceeds the attempts allowed -/
theorem apiRequestGo_attempts_le (o : Nat → ApiOutcome) :
    ∀ (rem attempt : Nat) (delays : List Nat),
      (apiRequestGo o rem attempt delays).attempts ≤ attempt + rem := by
  intro rem
  induction rem with
  | zero => intro attempt delays; simp [apiRequestGo]
  | succ n ih =>
    intro attempt delays
    cases h : o attempt with
    | success => simp [apiRequestGo, h]; try omega
    | httpErr c =>
      by_cases hc : c = 429 ∨ c ≥ 500
      · simp only [apiRequestGo, h, if_pos hc]
        calc (apiRequestGo o n (attempt + 1) (delays ++ [5 * 2 ^ attempt])).attempts
            ≤ attempt + 1 + n := ih (attempt + 1) _
          _ = attempt + (n + 1) := by omega
      · simp [apiRequestGo, h, hc]; try omega
    | netErr =>
      by_cases ha : attempt < 3 - 1
      · simp only [apiRequestGo, h, if_pos ha]
        calc (apiRequestGo o n (attempt + 1) (delays ++ [5 * 2 ^ attempt])).attempts
            ≤ attempt + 1 + n := ih (attempt + 1) _
          _ = attempt + (n + 1) := by omega
      · simp [apiRequestGo, h, ha]; try omega

/-- a selected transcript never already carries the terminal
complete_no_speaker_id status -/
theorem needsRetry_status_ne (forceAll : Bool) (d : RData)
    (h : needsRetry forceAll d = true) :
    d.pipeline_status ≠ "complete_no_speaker_id" := by
  simp [needsRetry] at h
  rcases h with h | h
  · rcases h with h | h <;> rw [h] <;> decide
  · rw [h.1.2]; decide

/-- rounding half-to-even never crosses an integer bound from below -/
theorem roundHalfEven_le_int (x : ℚ) (n : ℤ) (h : x ≤ (n : ℚ)) :
    roundHalfEven x ≤ n := by
  have hf : ⌊x⌋ ≤ n := by
    calc ⌊x⌋ ≤ ⌊(n : ℚ)⌋ := Int.floor_le_floor h
      _ = n := Int.floor_intCast n
  have hfl : (⌊x⌋ : ℚ) ≤ x := Int.floor_le x
  show (if x - (⌊x⌋ : ℚ) < 1 / 2 then ⌊x⌋
        else if x - (⌊x⌋ : ℚ) > 1 / 2 then ⌊x⌋ + 1
        else if ⌊x⌋ % 2 = 0 then ⌊x⌋ else ⌊x⌋ + 1) ≤ n
  split_ifs with h1 h2 h3
  · exact hf
  · have : (⌊x⌋ : ℚ) < (n : ℚ) := by linarith
    have : ⌊x⌋ < n := by exact_mod_cast this
    omega
  · exact hf
  · have hge : (1 : ℚ) / 2 ≤ x - (⌊x⌋ : ℚ) := le_of_not_lt h1
    have : (⌊x⌋ : ℚ) < (n : ℚ) := by linarith
    have : ⌊x⌋ < n := by exact_mod_cast this
    omega

/-- Python round to four digits preserves the 0.15 self-consistency bound -/
theorem pyRound_four_le (x : ℚ) (h : x ≤ 3 / 20) : pyRound 4 x ≤ 3 / 20 := by
  have hz : x * 10 ^ 4 ≤ ((1500 : ℤ) : ℚ) := by push_cast; nlinarith
  have hr : roundHalfEven (x * 10 ^ 4) ≤ 1500 := roundHalfEven_le_int _ _ hz
  have hrq : ((roundHalfEven (x * 10 ^ 4) : ℤ) : ℚ) ≤ 1500 := by exact_mod_cast hr
  unfold pyRound
  rw [div_le_iff₀ (by norm_num : (0 : ℚ) < 10 ^ 4)]
  have h2 : (3 : ℚ) / 20 * 10 ^ 4 = 1500 := by norm_num
  rw [h2]
  exact_mod_cast hr

/-! ## Claims -/

/-- C9: when the WAV-duration probe fails (returns None), submit_and_process
bypasses the minimum-duration gate: the clip proceeds to upload and
submission and no skipped_too_short transcript is written; the gate applies
only when the duration was successfully probed. -/
theorem claim_C9 :
    (∀ m : ℚ, submitGate true none m = SubmitAction.transcribe) ∧
    (∀ m dur : ℚ, dur < m → 1 ≤ dur → submitGate true (some dur) m = .skipShort true) ∧
    (∀ m dur : ℚ, dur < m → dur < 1 → submitGate true (some dur) m = .skipShort false) ∧
    (∀ m dur : ℚ, m ≤ dur → submitGate true (some dur) m = .transcribe) := by
  refine ⟨fun m => rfl, ?_, ?_, ?_⟩
  · intro m dur h h1
    simp [submitGate, if_pos h, h1]
  · intro m dur h h1
    simp [submitGate, if_pos h, not_le.mpr h1]
  · intro m dur h
    simp [submitGate, not_lt.mpr h]

/-- C9 witness: at duration None with threshold 10 the clip is transcribed;
at probed duration 3 < 10 it is skipped with an embedding attempt. -/
theorem claim_C9_witness :
    submitGate true none 10 = SubmitAction.transcribe ∧
    submitGate true (some 3) 10 = SubmitAction.skipShort true := by
  refine ⟨claim_C9.1 10, claim_C9.2.1 10 3 (by norm_num) (by norm_num)⟩

/-- C10: a transcript selected for retry with retry count below 10 whose
referenced audio file is missing from the inbox (or whose file field is
empty) is skipped: nothing is written, the retry count is not incremented,
and the decision is the same on every cycle while the state persists. -/
theorem claim_C10 :
    ∀ (forceAll : Bool) (identify : RData → RData) (audioExists : Bool) (d : RData),
      needsRetry forceAll d = true →
      d.speaker_id_retry_count < 10 →
      (d.file = "" ∨ audioExists = false) →
      retryDecision forceAll false audioExists identify d = RetryAction.skip := by
  intro fa idf ae d hsel hcount hmiss
  unfold retryDecision
  rw [if_neg (by simp)]
  rw [hsel]
  simp only [Bool.not_true, Bool.false_eq_true, if_false]
  rw [if_neg (by omega)]
  rcases hmiss with h | h
  · rw [if_pos (by simp [h])]
  · rw [if_pos (by simp [h])]

/-- C10 witness: a transcribed transcript with retry count 2 and absent audio
is skipped. -/
theorem claim_C10_witness :
    retryDecision false false false (fun x => x) ⟨"transcribed", [], "rec.wav", 2, none⟩
      = RetryAction.skip :=
  claim_C10 false (fun x => x) false ⟨"transcribed", [], "rec.wav", 2, none⟩
    (by decide) (by decide) (Or.inr rfl)

/-- C7: a transcript selected for retry whose retry count has reached 10 is
not re-identified; on the first such cycle the file is rewritten with
pipeline_status complete_no_speaker_id and speaker_id_error
max_retries_exceeded (retry count untouched), and on every later cycle the
rewritten transcript is left unchanged. -/
theorem claim_C7 :
    ∀ (forceAll active audioExists : Bool) (identify : RData → RData) (d : RData),
      active = false →
      needsRetry forceAll d = true →
      10 ≤ d.speaker_id_retry_count →
      retryDecision forceAll active audioExists identify d = .giveUp (giveUpData d) ∧
      (retryDecision forceAll active audioExists identify d).isRerun = false ∧
      (giveUpData d).pipeline_status = "complete_no_speaker_id" ∧
      (giveUpData d).speaker_id_error = some "max_retries_exceeded" ∧
      (giveUpData d).speaker_id_retry_count = d.speaker_id_retry_count ∧
      (∀ (f2 a2 ae2 : Bool) (id2 : RData → RData),
        retryDecision f2 a2 ae2 id2 (giveUpData d) = .skip) := by
  intro fa act ae idf d hact hsel hcount
  subst hact
  have hne := needsRetry_status_ne fa d hsel
  have hmain : retryDecision fa false ae idf d = .giveUp (giveUpData d) := by
    unfold retryDecision
    rw [if_neg (by simp)]
    rw [hsel]
    simp only [Bool.not_true, Bool.false_eq_true, if_false]
    rw [if_pos hcount, if_pos hne]
  refine ⟨hmain, by rw [hmain]; rfl, rfl, rfl, rfl, ?_⟩
  intro f2 a2 ae2 id2
  cases a2
  · unfold retryDecision
    rw [if_neg (by simp)]
    have : needsRetry f2 (giveUpData d) = false := by
      simp [needsRetry, giveUpData]
    rw [this]
    simp
  · unfold retryDecision
    rw [if_pos rfl]

/-- C7 witness: a speaker_id_failed transcript at retry count 10 triggers the
terminal rewrite and is skipped thereafter. -/
theorem claim_C7_witness :
    retryDecision false false true (fun x => x) ⟨"speaker_id_failed", [], "rec.wav", 10, none⟩
      = RetryAction.giveUp (giveUpData ⟨"speaker_id_failed", [], "rec.wav", 10, none⟩) ∧
    retryDecision false false true (fun x => x)
      (giveUpData ⟨"speaker_id_failed", [], "rec.wav", 10, none⟩) = RetryAction.skip := by
  have h := claim_C7 false false true (fun x => x)
    ⟨"speaker_id_failed", [], "rec.wav", 10, none⟩ rfl (by decide) (by decide)
  exact ⟨h.1, h.2.2.2.2.2 false false true (fun x => x)⟩

/-- C6 counterexample: under force_all, a complete transcript with an
unidentified speaker and retry count 10 is not re-identified as the claim
states; it is instead rewritten to complete_no_speaker_id. -/
theorem claim_C6_counterexample :
    retryDecision true false true (fun x => x) ⟨"complete", ["SPEAKER_00"], "rec.wav", 10, none⟩
      = RetryAction.giveUp (giveUpData ⟨"complete", ["SPEAKER_00"], "rec.wav", 10, none⟩) ∧
    (retryDecision true false true (fun x => x)
      ⟨"complete", ["SPEAKER_00"], "rec.wav", 10, none⟩).isRerun = false := by
  decide

/-- C6 (amended): a retry cycle on a complete transcript is a no-op unless
force_all is set and unidentified is non-empty; in that exceptional case
identification is re-run only when the clip is not actively processing, the
retry count is below 10 and the referenced audio exists in the inbox — with
count at least 10 the transcript is instead rewritten to
complete_no_speaker_id, and with missing audio it is skipped; transcripts at
speaker_id_failed or transcribed always have needs_retry set. -/
theorem claim_C6 :
    (∀ (forceAll active audioExists : Bool) (identify : RData → RData) (d : RData),
        d.pipeline_status = "complete" →
        (forceAll = false ∨ d.unidentified = []) →
        retryDecision forceAll active audioExists identify d = .skip) ∧
    (∀ (identify : RData → RData) (d : RData),
        d.pipeline_status = "complete" → d.unidentified ≠ [] →
        d.speaker_id_retry_count < 10 → d.file ≠ "" →
        retryDecision true false true identify d
          = .rerun (finishIdentify
              (identify { d with speaker_id_retry_count := d.speaker_id_retry_count + 1 }))) ∧
    (∀ (audioExists : Bool) (identify : RData → RData) (d : RData),
        d.pipeline_status = "complete" → d.unidentified ≠ [] →
        10 ≤ d.speaker_id_retry_count →
        retryDecision true false audioExists identify d = .giveUp (giveUpData d)) ∧
    (∀ (identify : RData → RData) (audioExists : Bool) (d : RData),
        d.pipeline_status = "complete" → d.unidentified ≠ [] →
        d.speaker_id_retry_count < 10 → (d.file = "" ∨ audioExists = false) →
        retryDecision true false audioExists identify d = .skip) ∧
    (∀ (forceAll : Bool) (d : RData),
        (d.pipeline_status = "speaker_id_failed" ∨ d.pipeline_status = "transcribed") →
        needsRetry forceAll d = true) := by
  refine ⟨?_, ?_, ?_, ?_, ?_⟩
  · intro fa act ae idf d hst hno
    cases act
    · have hnr : needsRetry fa d = false := by
        rcases hno with h | h <;> simp [needsRetry, hst, h]
      unfold retryDecision
      rw [if_neg (by simp), hnr]
      simp
    · unfold retryDecision
      rw [if_pos rfl]
  · intro idf d hst hun hcount hfile
    have hnr : needsRetry true d = true := by
      simp [needsRetry, hst, List.isEmpty_iff, hun]
    unfold retryDecision
    rw [if_neg (by simp), hnr]
    simp only [Bool.not_true, Bool.false_eq_true, if_false]
    rw [if_neg (by omega)]
    rw [if_neg (by simp [hfile])]
  · intro ae idf d hst hun hcount
    have hnr : needsRetry true d = true := by
      simp [needsRetry, hst, List.isEmpty_iff, hun]
    unfold retryDecision
    rw [if_neg (by simp), hnr]
    simp only [Bool.not_true, Bool.false_eq_true, if_false]
    rw [if_pos hcount, if_pos (by rw [hst]; decide)]
  · intro idf ae d hst hun hcount hmiss
    have hnr : needsRetry true d = true := by
      simp [needsRetry, hst, List.isEmpty_iff, hun]
    exact claim_C10 true idf ae d hnr hcount hmiss
  · intro fa d hst
    rcases hst with h | h <;> simp [needsRetry, h]

/-- C6 witness: force_all with one unidentified speaker and retry count 0
re-runs identification; without force_all the complete transcript is
skipped. -/
theorem claim_C6_witness :
    retryDecision true false true (fun x => x) ⟨"complete", ["S"], "a.wav", 0, none⟩
      = RetryAction.rerun (finishIdentify ⟨"complete", ["S"], "a.wav", 1, none⟩) ∧
    retryDecision false false true (fun x => x) ⟨"complete", ["S"], "a.wav", 0, none⟩
      = RetryAction.skip := by
  refine ⟨?_, ?_⟩
  · exact claim_C6.2.1 (fun x => x) ⟨"complete", ["S"], "a.wav", 0, none⟩
      rfl (by decide) (by decide) (by decide)
  · exact claim_C6.1 false false true (fun x => x) ⟨"complete", ["S"], "a.wav", 0, none⟩
      rfl (Or.inl rfl)

/-- C5 counterexample: when every attempt fails with HTTP 429 the wrapper
sleeps three backoff delays (including one after the final attempt) and then
returns None instead of failing with a raised error. -/
theorem claim_C5_counterexample :
    apiRequest (fun _ => ApiOutcome.httpErr 429)
      = ⟨ApiResult.noResult, [5, 10, 20], 3⟩ ∧
    (apiRequest (fun _ => ApiOutcome.httpErr 429)).result.isRaised = false := by
  decide

/-- C5 (amended): every request makes at most 3 attempts; a non-429 4xx on
the first attempt propagates immediately with no delay; three retryable HTTP
failures (429/5xx) sleep delays 5, 10, 20 and return None rather than
raising; three network errors sleep 5, 10 and re-raise the final error; a
retryable HTTP failure followed by success returns the result after one 5 s
delay. -/
theorem claim_C5 :
    (∀ o : Nat → ApiOutcome, (apiRequest o).attempts ≤ 3) ∧
    (∀ (o : Nat → ApiOutcome) (c : Nat), o 0 = .httpErr c → ¬(c = 429 ∨ 500 ≤ c) →
        apiRequest o = ⟨.raisedHttp c, [], 1⟩) ∧
    (∀ o : Nat → ApiOutcome,
        (∀ i, i < 3 → ∃ c, o i = .httpErr c ∧ (c = 429 ∨ 500 ≤ c)) →
        (apiRequest o).result = .noResult ∧ (apiRequest o).delays = [5, 10, 20]) ∧
    (∀ o : Nat → ApiOutcome, (∀ i, i < 3 → o i = .netErr) →
        apiRequest o = ⟨.raisedNet, [5, 10], 3⟩) ∧
    (∀ (o : Nat → ApiOutcome) (c : Nat),
        o 0 = .httpErr c → (c = 429 ∨ 500 ≤ c) → o 1 = .success →
        apiRequest o = ⟨.ok, [5], 2⟩) := by
  refine ⟨?_, ?_, ?_, ?_, ?_⟩
  · intro o
    exact apiRequestGo_attempts_le o 3 0 []
  · intro o c h0 hc
    simp [apiRequest, apiRequestGo, h0, hc]
  · intro o h
    obtain ⟨c0, h0, hc0⟩ := h 0 (by omega)
    obtain ⟨c1, h1, hc1⟩ := h 1 (by omega)
    obtain ⟨c2, h2, hc2⟩ := h 2 (by omega)
    have : apiRequest o = ⟨.noResult, [5, 10, 20], 3⟩ := by
      simp [apiRequest, apiRequestGo, h0, hc0, h1, hc1, h2, hc2]
    rw [this]
    exact ⟨rfl, rfl⟩
  · intro o h
    have h0 := h 0 (by omega)
    have h1 := h 1 (by omega)
    have h2 := h 2 (by omega)
    simp [apiRequest, apiRequestGo, h0, h1, h2]
  · intro o c h0 hc h1
    simp [apiRequest, apiRequestGo, h0, hc, h1]

/-- C5 witness: three consecutive network errors surface the final raised
error after backoffs 5 and 10. -/
theorem claim_C5_witness :
    apiRequest (fun _ => ApiOutcome.netErr) = ⟨ApiResult.raisedNet, [5, 10], 3⟩ :=
  claim_C5.2.2.2.1 (fun _ => ApiOutcome.netErr) (fun _ _ => rfl)

/-- C8: a candidate is written only when the cluster has at least 10 samples,
no candidate file already exists, the mean per-dimension variance is at most
max_variance and the mean pairwise cosine distance is at most 0.15; the
written candidate records status pending_review, the computed variance, and
a rounded self-consistency that also respects the 0.15 bound. -/
theorem claim_C8 :
    ∀ (sid : String) (candidateExists : Bool) (embs : List (List ℚ))
      (scVal maxVariance : ℚ) (cand : Candidate),
      check_candidate sid candidateExists embs scVal maxVariance = some cand →
      cand.status = "pending_review" ∧
      10 ≤ embs.length ∧
      candidateExists = false ∧
      cand.num_samples = embs.length ∧
      cand.variance = meanVariance embs ∧
      cand.variance ≤ maxVariance ∧
      scVal ≤ 3 / 20 ∧
      cand.self_consistency = some (pyRound 4 scVal) ∧
      (∀ r, cand.self_consistency = some r → r ≤ 3 / 20) := by
  intro sid ce embs scVal maxVar cand h
  simp only [check_candidate] at h
  by_cases h1 : embs.length < 10
  · rw [if_pos h1] at h; exact absurd h (by simp)
  rw [if_neg h1] at h
  by_cases hce : ce = true
  · rw [hce, if_pos rfl] at h; exact absurd h (by simp)
  have hcef : ce = false := by
    cases ce
    · rfl
    · exact absurd rfl hce
  rw [hcef, if_neg (by simp)] at h
  by_cases h2 : meanVariance embs > maxVar
  · rw [if_pos h2] at h; exact absurd h (by simp)
  rw [if_neg h2] at h
  have hsc : compute_self_consistency embs scVal = some scVal := by
    unfold compute_self_consistency
    rw [if_neg (by omega)]
  rw [hsc] at h
  by_cases h3 : scVal > 3 / 20
  · rw [if_pos (by simpa using h3)] at h; exact absurd h (by simp)
  rw [if_neg (by simpa using h3)] at h
  have hc : cand = { speaker_id := sid
                     num_samples := embs.length
                     variance := meanVariance embs
                     self_consistency := (Option.map (pyRound 4) (some scVal))
                     autoThreshold := auto_threshold (some scVal)
                     status := "pending_review"
                     suggested_name := none } := by
    exact (Option.some.injEq _ _ ▸ h).symm
  subst hc
  refine ⟨rfl, by omega, hcef, rfl, rfl, le_of_not_lt h2, le_of_not_lt h3, rfl, ?_⟩
  intro r hr
  simp only [Option.map_some] at hr
  cases hr
  exact pyRound_four_le scVal (le_of_not_lt h3)

/-- C8 witness: ten identical one-dimensional samples with zero variance and
zero self-consistency produce a pending_review candidate. -/
theorem claim_C8_witness :
    check_candidate "cluster-x" false (List.replicate 10 [(0 : ℚ)]) 0 20
      = some { speaker_id := "cluster-x", num_samples := 10, variance := 0,
               self_consistency := some 0, autoThreshold := 1 / 5,
               status := "pending_review", suggested_name := none } ∧
    (0 : ℚ) ≤ 3 / 20 ∧ (0 : ℚ) ≤ 20 := by
  have heq : check_candidate "cluster-x" false (List.replicate 10 [(0 : ℚ)]) 0 20
      = some { speaker_id := "cluster-x", num_samples := 10, variance := 0,
               self_consistency := some 0, autoThreshold := 1 / 5,
               status := "pending_review", suggested_name := none } := by
    have hvar : meanVariance (List.replicate 10 [(0 : ℚ)]) = 0 := by
      simp [meanVariance, colVar, qmean, List.map_replicate]
    norm_num [check_candidate, hvar, compute_self_consistency, pyRound,
      roundHalfEven, auto_threshold]
  have hp := claim_C8 "cluster-x" false (List.replicate 10 [(0 : ℚ)]) 0 20 _ heq
  exact ⟨heq, hp.2.2.2.2.2.2.1, by norm_num⟩

/-- C3 counterexample: a legacy transcript (empty pipeline_status) with
segments is mapped to complete, not processing as the claim states. -/
theorem claim_C3_counterexample :
    determine_status ⟨"", [⟨0, 5, "hello", "SPEAKER_00", none⟩], none, none,
        [], [], false, "a.wav", none, none, 0⟩ = "complete" ∧
    ("complete" : String) ≠ "processing" := by
  constructor
  · rfl
  · decide

/-- C3 (amended): an empty pipeline_status yields processing only when the
transcript has no segments — with segments it yields complete; an
unrecognized non-empty pipeline_status yields processing; pipeline_status in
{complete, complete_no_speaker_id} (with assemblyai status not error, which
would yield failed) yields pending_curator when unidentified is non-empty
and complete when it is empty. -/
theorem claim_C3 :
    (∀ d : TData, d.pipeline_status = "" → d.aai_status ≠ some "error" →
        d.segments = [] → determine_status d = "processing") ∧
    (∀ d : TData, d.pipeline_status = "" → d.aai_status ≠ some "error" →
        d.segments ≠ [] → determine_status d = "complete") ∧
    (∀ d : TData, d.pipeline_status ∉ (["", "skipped_too_short", "transcribed",
        "speaker_id_failed", "complete", "complete_no_speaker_id"] : List String) →
        d.aai_status ≠ some "error" → determine_status d = "processing") ∧
    (∀ d : TData,
        (d.pipeline_status = "complete" ∨ d.pipeline_status = "complete_no_speaker_id") →
        d.aai_status ≠ some "error" → d.unidentified ≠ [] →
        determine_status d = "pending_curator") ∧
    (∀ d : TData,
        (d.pipeline_status = "complete" ∨ d.pipeline_status = "complete_no_speaker_id") →
        d.aai_status ≠ some "error" → d.unidentified = [] →
        determine_status d = "complete") := by
  refine ⟨?_, ?_, ?_, ?_, ?_⟩
  · intro d hps herr hseg
    simp [determine_status, hps, herr, hseg]
  · intro d hps herr hseg
    simp [determine_status, hps, herr, List.isEmpty_iff, hseg]
  · intro d hps herr
    simp only [List.mem_cons, List.not_mem_nil, or_false, not_or] at hps
    obtain ⟨h0, h1, h2, h3, h4, h5⟩ := hps
    simp [determine_status, h0, h1, h2, h3, h4, h5, herr]
  · intro d hps herr hun
    rcases hps with h | h <;>
      simp [determine_status, h, herr, List.isEmpty_iff, hun]
  · intro d hps herr hun
    rcases hps with h | h <;>
      simp [determine_status, h, herr, hun]

/-- C3 witness: an empty-status transcript with no segments is processing; a
complete transcript with an unidentified speaker is pending_curator. -/
theorem claim_C3_witness :
    determine_status ⟨"", [], none, none, [], [], false, "a.wav", none, none, 0⟩
      = "processing" ∧
    determine_status ⟨"complete", [], none, none, [], ["SPEAKER_01"], false,
        "b.wav", none, none, 0⟩ = "pending_curator" := by
  constructor
  · exact claim_C3.1 _ rfl (by decide) rfl
  · exact claim_C3.2.2.2.1 _ (Or.inl rfl) (by decide) (by decide)

/-- the job status computed by build_job_entry is always determine_status -/
theorem build_job_entry_status (stem : String) (d : TData) (ex : Option JobEntry)
    (pb : Bool) (now : DT) :
    (build_job_entry stem d ex pb now).status = determine_status d := by
  cases ex <;> rfl

/-- the curator gate never touches the inbox or playback WAVs, nor the
playbackFile field of the entry -/
theorem curatorGate_preserves (d : TData) (now : DT) (ne : JobEntry) (fs : StemFS) :
    (curatorGate d now ne fs).fs.inboxWav = fs.inboxWav ∧
    (curatorGate d now ne fs).fs.playbackWav = fs.playbackWav ∧
    (curatorGate d now ne fs).entry.playbackFile = ne.playbackFile := by
  unfold curatorGate
  split_ifs with h1 h2
  · cases hs : sync_to_curator d now fs.curator fs.pending fs.marker with
    | mk path cur pend mk2 => cases path <;> simp
  · simp
  · simp

/-- when the per-stem body is not on the unchanged-status skip branch it
reduces to the transition actions -/
theorem processStem_not_skip (mp : ℚ) (stem : String) (d : TData)
    (ex : Option JobEntry) (fs : StemFS) (now : DT)
    (h : ∀ e, ex = some e → e.status ≠ determine_status d) :
    processStem mp stem d ex fs now
      = stepActions mp stem d (build_job_entry stem d ex fs.playbackWav now)
          (ex.map (fun e => e.status)) fs now := by
  unfold processStem
  cases ex with
  | none => rfl
  | some e =>
    have hne : ¬ (e.status = (build_job_entry stem d (some e) fs.playbackWav now).status) := by
      rw [build_job_entry_status]
      exact h e rfl
    simp only [hne, if_false, Option.map_some]

/-- the per-stem body either leaves the filesystem untouched or acts through
stepActions -/
theorem processStem_fs_cases (mp : ℚ) (stem : String) (d : TData)
    (ex : Option JobEntry) (fs : StemFS) (now : DT) :
    (processStem mp stem d ex fs now).fs = fs ∨
    ∃ ne old, (processStem mp stem d ex fs now).fs
      = (stepActions mp stem d ne old fs now).fs := by
  unfold processStem
  cases ex with
  | none => exact Or.inr ⟨_, _, rfl⟩
  | some e =>
    simp only [Option.map_some]
    split_ifs with h1 h2
    · exact Or.inr ⟨_, _, rfl⟩
    · exact Or.inl rfl
    · exact Or.inr ⟨_, _, rfl⟩

/-- the audio-lifecycle step on a firing transition with the WAV present -/
theorem audioLifecycle_move (mp : ℚ) (stem : String) (d : TData) (ne : JobEntry)
    (old : Option String) (fs : StemFS)
    (hcond : (ne.status ≠ "queued" ∧ ne.status ≠ "processing") ∧
      (old = some "queued" ∨ old = some "processing" ∨ old = none))
    (hwav : fs.inboxWav = true) :
    audioLifecycle mp stem d ne old fs =
      if get_duration d ≥ mp then
        ({ ne with playbackFile := some (stem ++ ".wav") },
         { fs with inboxWav := false, playbackWav := true })
      else (ne, { fs with inboxWav := false }) := by
  unfold audioLifecycle
  rw [if_pos hcond, hwav]
  simp

/-- the audio-lifecycle step either leaves both WAV flags unchanged or
removes the inbox WAV -/
theorem audioLifecycle_inv (mp : ℚ) (stem : String) (d : TData) (ne : JobEntry)
    (old : Option String) (fs : StemFS) :
    ((audioLifecycle mp stem d ne old fs).2.inboxWav = fs.inboxWav ∧
     (audioLifecycle mp stem d ne old fs).2.playbackWav = fs.playbackWav) ∨
    (audioLifecycle mp stem d ne old fs).2.inboxWav = false := by
  unfold audioLifecycle
  split_ifs <;> simp

/-- C2: on the first cycle in which a job's status leaves queued/processing,
with the WAV still in the inbox, the WAV is removed from the inbox — moved to
playback/ when the transcript duration is at least min_playback_duration and
deleted otherwise; and one cycle never creates a state with the WAV in both
inbox/ and playback/. -/
theorem claim_C2 :
    (∀ (minPlayback : ℚ) (stem : String) (d : TData) (existing : Option JobEntry)
       (fs : StemFS) (now : DT),
       (existing.map (fun e => e.status) = some "queued" ∨
        existing.map (fun e => e.status) = some "processing" ∨ existing = none) →
       determine_status d ≠ "queued" →
       determine_status d ≠ "processing" →
       fs.inboxWav = true →
       ((processStem minPlayback stem d existing fs now).fs.inboxWav = false ∧
        (minPlayback ≤ get_duration d →
          (processStem minPlayback stem d existing fs now).fs.playbackWav = true ∧
          (processStem minPlayback stem d existing fs now).entry.playbackFile
            = some (stem ++ ".wav")) ∧
        (get_duration d < minPlayback →
          (processStem minPlayback stem d existing fs now).fs.playbackWav
            = fs.playbackWav))) ∧
    (∀ (minPlayback : ℚ) (stem : String) (d : TData) (existing : Option JobEntry)
       (fs : StemFS) (now : DT),
       ¬(fs.inboxWav = true ∧ fs.playbackWav = true) →
       ¬((processStem minPlayback stem d existing fs now).fs.inboxWav = true ∧
         (processStem minPlayback stem d existing fs now).fs.playbackWav = true)) := by
  constructor
  · intro mp stem d ex fs now hold hq hp hwav
    have hns : ∀ e, ex = some e → e.status ≠ determine_status d := by
      intro e he hst
      rcases hold with h | h | h
      · rw [he] at h
        simp only [Option.map_some', Option.some.injEq] at h
        rw [hst] at h
        exact hq h
      · rw [he] at h
        simp only [Option.map_some', Option.some.injEq] at h
        rw [hst] at h
        exact hp h
      · rw [he] at h; exact Option.noConfusion h
    rw [processStem_not_skip mp stem d ex fs now hns]
    unfold stepActions
    have hcond : ((build_job_entry stem d ex fs.playbackWav now).status ≠ "queued" ∧
        (build_job_entry stem d ex fs.playbackWav now).status ≠ "processing") ∧
        (ex.map (fun e => e.status) = some "queued" ∨
         ex.map (fun e => e.status) = some "processing" ∨
         ex.map (fun e => e.status) = none) := by
      refine ⟨⟨?_, ?_⟩, ?_⟩
      · rw [build_job_entry_status]; exact hq
      · rw [build_job_entry_status]; exact hp
      · rcases hold with h | h | h
        · exact Or.inl h
        · exact Or.inr (Or.inl h)
        · exact Or.inr (Or.inr (by rw [h]; rfl))
    rw [audioLifecycle_move mp stem d _ _ fs hcond hwav]
    by_cases hd : get_duration d ≥ mp
    · rw [if_pos hd]
      have hpr := curatorGate_preserves d now
        { build_job_entry stem d ex fs.playbackWav now with
            playbackFile := some (stem ++ ".wav") }
        { fs with inboxWav := false, playbackWav := true }
      refine ⟨by rw [hpr.1], fun _ => ⟨by rw [hpr.2.1], by rw [hpr.2.2]⟩,
        fun hlt => absurd hd (not_le.mpr hlt)⟩
    · rw [if_neg hd]
      have hpr := curatorGate_preserves d now
        (build_job_entry stem d ex fs.playbackWav now) { fs with inboxWav := false }
      have hlt : get_duration d < mp := lt_of_not_ge hd
      refine ⟨by rw [hpr.1], fun hle => absurd hle (not_le.mpr hlt),
        fun _ => by rw [hpr.2.1]⟩
  · intro mp stem d ex fs now hinv
    rcases processStem_fs_cases mp stem d ex fs now with h | ⟨ne, old, h⟩
    · rw [h]; exact hinv
    · rw [h]
      unfold stepActions
      have hpr := curatorGate_preserves d now
        (audioLifecycle mp stem d ne old fs).1 (audioLifecycle mp stem d ne old fs).2
      rw [hpr.1, hpr.2.1]
      rcases audioLifecycle_inv mp stem d ne old fs with ⟨h1, h2⟩ | h1
      · rw [h1, h2]; exact hinv
      · rw [h1]; simp

/-- C2 witness: a queued job whose transcript completes with a 30 s duration
moves the WAV from inbox/ to playback/. -/
theorem claim_C2_witness :
    ((processStem 10 "clip"
        ⟨"complete", [], none, some 30, [], [], false, "clip.wav", none, none, 0⟩
        (some ⟨"microphone", "clip.wav", ⟨2024, 1, 1, 0, 0, 0⟩, "queued", "", [], [],
          none, none, none, none, none, none, none⟩)
        ⟨true, false, true, [], []⟩ ⟨2024, 1, 1, 1, 0, 0⟩).fs.inboxWav = false ∧
     (10 : ℚ) ≤ 30 ∧
     (processStem 10 "clip"
        ⟨"complete", [], none, some 30, [], [], false, "clip.wav", none, none, 0⟩
        (some ⟨"microphone", "clip.wav", ⟨2024, 1, 1, 0, 0, 0⟩, "queued", "", [], [],
          none, none, none, none, none, none, none⟩)
        ⟨true, false, true, [], []⟩ ⟨2024, 1, 1, 1, 0, 0⟩).fs.playbackWav = true) := by
  have h := (claim_C2.1 10 "clip"
      ⟨"complete", [], none, some 30, [], [], false, "clip.wav", none, none, 0⟩
      (some ⟨"microphone", "clip.wav", ⟨2024, 1, 1, 0, 0, 0⟩, "queued", "", [], [],
        none, none, none, none, none, none, none⟩)
      ⟨true, false, true, [], []⟩ ⟨2024, 1, 1, 1, 0, 0⟩
      (Or.inl rfl) (by decide) (by decide) rfl)
  have h30 : (10 : ℚ) ≤ 30 := by norm_num
  have hdur : (10 : ℚ) ≤ get_duration
      ⟨"complete", [], none, some 30, [], [], false, "clip.wav", none, none, 0⟩ := by
    unfold get_duration
    norm_num
  exact ⟨h.1, h30, (h.2.1 hdur).1⟩

/-- decimal digit characters are distinct for distinct digits -/
theorem digitChar_inj10 : ∀ a < 10, ∀ b < 10,
    Nat.digitChar a = Nat.digitChar b → a = b := by decide

/-- unfolding decChars below ten -/
theorem decChars_lt (n : Nat) (h : n < 10) : decChars n = [Nat.digitChar n] := by
  rw [decChars]
  exact dif_pos h

/-- unfolding decChars at ten and above -/
theorem decChars_ge (n : Nat) (h : ¬ n < 10) :
    decChars n = decChars (n / 10) ++ [Nat.digitChar (n % 10)] := by
  conv_lhs => rw [decChars]
  rw [dif_neg h]

/-- with sufficient fuel, Nat.toDigitsCore produces the decimal digits
followed by the accumulator -/
theorem toDigitsCore_decChars :
    ∀ (n f : Nat) (ds : List Char), n ≤ f →
      Nat.toDigitsCore 10 (f + 1) n ds = decChars n ++ ds := by
  intro n
  induction n using Nat.strong_induction_on with
  | _ n ih =>
    intro f ds hf
    by_cases h : n < 10
    · have hdiv : n / 10 = 0 := Nat.div_eq_of_lt h
      unfold Nat.toDigitsCore
      simp only [hdiv, if_pos rfl]
      rw [decChars_lt n h, Nat.mod_eq_of_lt h]
      rfl
    · have h10 : 10 ≤ n := le_of_not_lt h
      have hne : ¬ (n / 10 = 0) := by
        have : 1 ≤ n / 10 := (Nat.one_le_div_iff (by omega)).mpr h10
        omega
      obtain ⟨f', rfl⟩ : ∃ f', f = f' + 1 := ⟨f - 1, by omega⟩
      have hdivlt : n / 10 < n := Nat.div_lt_self (by omega) (by omega)
      unfold Nat.toDigitsCore
      simp only [if_neg hne]
      rw [ih (n / 10) hdivlt f' _ (by omega)]
      rw [decChars_ge n h]
      simp

/-- Nat.toDigits base 10 equals the fuel-free decimal form -/
theorem toDigits_eq_decChars (n : Nat) : Nat.toDigits 10 n = decChars n := by
  unfold Nat.toDigits
  rw [toDigitsCore_decChars n n [] le_rfl]
  simp

/-- the decimal form of a number is never empty -/
theorem decChars_ne_nil (n : Nat) : decChars n ≠ [] := by
  rw [decChars]
  split_ifs with h
  · simp
  · simp

/-- the decimal form determines the number -/
theorem decChars_inj : ∀ m n : Nat, decChars m = decChars n → m = n := by
  intro m
  induction m using Nat.strong_induction_on with
  | _ m ih =>
    intro n h
    by_cases hm : m < 10 <;> by_cases hn : n < 10
    · rw [decChars_lt m hm, decChars_lt n hn] at h
      simp only [List.cons.injEq, and_true] at h
      exact digitChar_inj10 m hm n hn h
    · exfalso
      rw [decChars_lt m hm, decChars_ge n hn] at h
      have hlen := congrArg List.length h
      have hpos : 0 < (decChars (n / 10)).length :=
        List.length_pos.mpr (decChars_ne_nil _)
      simp only [List.length_append, List.length_singleton, List.length_cons,
        List.length_nil] at hlen
      omega
    · exfalso
      rw [decChars_ge m hm, decChars_lt n hn] at h
      have hlen := congrArg List.length h
      have hpos : 0 < (decChars (m / 10)).length :=
        List.length_pos.mpr (decChars_ne_nil _)
      simp only [List.length_append, List.length_singleton, List.length_cons,
        List.length_nil] at hlen
      omega
    · rw [decChars_ge m hm, decChars_ge n hn] at h
      have hrev := congrArg List.reverse h
      simp only [List.reverse_append, List.reverse_cons, List.reverse_nil,
        List.nil_append, List.singleton_append, List.cons.injEq] at hrev
      obtain ⟨hdig, htail⟩ := hrev
      have hmod : m % 10 = n % 10 :=
        digitChar_inj10 (m % 10) (Nat.mod_lt m (by omega)) (n % 10)
          (Nat.mod_lt n (by omega)) hdig
      have hdiv : m / 10 = n / 10 := by
        have hdivlt : m / 10 < m := Nat.div_lt_self (by omega) (by omega)
        exact ih (m / 10) hdivlt (n / 10) (List.reverse_injective htail)
      have hm2 := Nat.div_add_mod m 10
      have hn2 := Nat.div_add_mod n 10
      omega

/-- decimal printing of naturals is injective -/
theorem natRepr_inj : ∀ m n : Nat, Nat.repr m = Nat.repr n → m = n := by
  intro m n h
  unfold Nat.repr at h
  rw [toDigits_eq_decChars, toDigits_eq_decChars] at h
  exact decChars_inj m n (List.asString_inj.mp h)

/-- distinct counters give distinct collision file names -/
theorem counterName_inj (tp sfx : String) :
    ∀ c c' : Nat, counterName tp sfx c = counterName tp sfx c' → c = c' := by
  intro c c' h
  unfold counterName at h
  have hd := congrArg String.data h
  simp only [String.data_append] at hd
  have h1 := List.append_cancel_right hd
  have h2 := List.append_cancel_left h1
  exact natRepr_inj c c' (String.ext h2)

/-- the counter chosen by the collision loop is at least 1 and its file name
does not collide with any existing name in the directory -/
theorem freshCounter_spec (tp sfx : String) (names : List String) :
    1 ≤ freshCounter tp sfx names ∧
    names.contains (counterName tp sfx (freshCounter tp sfx names)) = false := by
  unfold freshCounter
  cases hf : (((List.range (names.length + 1)).map (fun i => i + 1)).find?
      (fun c => !names.contains (counterName tp sfx c))) with
  | some c =>
    constructor
    · show 1 ≤ c
      have hmem := List.mem_of_find?_eq_some hf
      simp only [List.mem_map, List.mem_range] at hmem
      obtain ⟨i, _, rfl⟩ := hmem
      omega
    · show names.contains (counterName tp sfx c) = false
      have hpred := List.find?_some hf
      simpa using hpred
  | none =>
    exfalso
    have hall := List.find?_eq_none.mp hf
    have hsub : ∀ i ∈ List.range (names.length + 1),
        counterName tp sfx (i + 1) ∈ names := by
      intro i hi
      have := hall (i + 1) (List.mem_map.mpr ⟨i, hi, rfl⟩)
      simpa [List.contains] using this
    have hinj : Function.Injective (fun i => counterName tp sfx (i + 1)) := by
      intro a b hab
      have := counterName_inj tp sfx (a + 1) (b + 1) hab
      omega
    have hnodup : ((List.range (names.length + 1)).map
        (fun i => counterName tp sfx (i + 1))).Nodup :=
      (List.nodup_range _).map hinj
    have hcard : ((List.range (names.length + 1)).map
        (fun i => counterName tp sfx (i + 1))).length ≤ names.length := by
      calc ((List.range (names.length + 1)).map
              (fun i => counterName tp sfx (i + 1))).length
          = ((List.range (names.length + 1)).map
              (fun i => counterName tp sfx (i + 1))).toFinset.card :=
            (List.toFinset_card_of_nodup hnodup).symm
        _ ≤ names.toFinset.card := by
            apply Finset.card_le_card
            intro x hx
            rw [List.mem_toFinset] at hx
            rw [List.mem_toFinset]
            simp only [List.mem_map, List.mem_range] at hx
            obtain ⟨i, hi, rfl⟩ := hx
            exact hsub i (List.mem_range.mpr hi)
        _ ≤ names.length := names.toFinset_card_le
    simp at hcard

/-- the audio-lifecycle step never touches the entry status, the marker or
the curator tree -/
theorem audioLifecycle_preserves (mp : ℚ) (stem : String) (d : TData)
    (ne : JobEntry) (old : Option String) (fs : StemFS) :
    (audioLifecycle mp stem d ne old fs).1.status = ne.status ∧
    (audioLifecycle mp stem d ne old fs).2.marker = fs.marker ∧
    (audioLifecycle mp stem d ne old fs).2.curator = fs.curator ∧
    (audioLifecycle mp stem d ne old fs).2.pending = fs.pending := by
  unfold audioLifecycle
  split_ifs <;> simp

/-- with non-empty transcript text, sync_to_curator always publishes: it
returns a relative path, touches the marker, and the curator tree afterwards
holds a file recording the transcript's audio filename -/
theorem sync_some (d : TData) (now : DT) (cur pend : List CurFile) (mk2 : Bool)
    (h : curatorFullText d.segments ≠ "") :
    (sync_to_curator d now cur pend mk2).marker = true ∧
    (∃ p, (sync_to_curator d now cur pend mk2).path = some p) ∧
    (∃ f, f ∈ (sync_to_curator d now cur pend mk2).curator ∧
      f.audioPath = d.file) := by
  unfold sync_to_curator
  rw [if_neg h]
  cases hf1 : (cur.filter (fun f => globMatch (syncDD d now) (syncTP d now) f
      && f.name ≠ "conversations.json")).find? (fun f => f.audioPath = d.file) with
  | some f =>
    refine ⟨rfl, ⟨_, rfl⟩, ⟨⟨syncDD d now, f.name, d.file⟩, ?_, rfl⟩⟩
    exact List.mem_append_right _ (List.mem_singleton_self _)
  | none =>
    cases hf2 : (pend.filter (globMatch (syncDD d now) (syncTP d now))).find?
        (fun f => f.audioPath = d.file) with
    | some pf =>
      refine ⟨rfl, ⟨_, rfl⟩, ⟨⟨syncDD d now, pf.name, d.file⟩, ?_, rfl⟩⟩
      exact List.mem_append_right _ (List.mem_singleton_self _)
    | none =>
      refine ⟨rfl, ⟨_, rfl⟩,
        ⟨⟨syncDD d now, syncOutName d now cur, d.file⟩, ?_, rfl⟩⟩
      exact List.mem_append_right _ (List.mem_singleton_self _)

/-- C4 counterexample: a previously synced job whose transcript has been
rewritten (hence is newer than the still-present marker) is not republished:
the cycle leaves the curator tree untouched and merely flips the status back
to curator_synced.  The orchestrator never reads any mtime. -/
theorem claim_C4_counterexample :
    (processStem 10 "clip"
        ⟨"complete", [⟨0, 5, "hello again", "SPEAKER_00", none⟩], none, none,
          [], [], false, "clip.wav", some ⟨2024, 1, 1, 12, 0, 0⟩, none, 1⟩
        (some ⟨"microphone", "clip.wav", ⟨2024, 1, 1, 12, 0, 0⟩, "curator_synced",
          "complete", [], [], none, none, none, none, none,
          some "2024/01/01/12-00-00.json", none⟩)
        ⟨false, true, true, [⟨"2024/01/01", "12-00-00.json", "clip.wav"⟩], []⟩
        ⟨2024, 1, 1, 12, 30, 0⟩).entry.status = "curator_synced" ∧
    (processStem 10 "clip"
        ⟨"complete", [⟨0, 5, "hello again", "SPEAKER_00", none⟩], none, none,
          [], [], false, "clip.wav", some ⟨2024, 1, 1, 12, 0, 0⟩, none, 1⟩
        (some ⟨"microphone", "clip.wav", ⟨2024, 1, 1, 12, 0, 0⟩, "curator_synced",
          "complete", [], [], none, none, none, none, none,
          some "2024/01/01/12-00-00.json", none⟩)
        ⟨false, true, true, [⟨"2024/01/01", "12-00-00.json", "clip.wav"⟩], []⟩
        ⟨2024, 1, 1, 12, 30, 0⟩).fs.curator
      = [⟨"2024/01/01", "12-00-00.json", "clip.wav"⟩] ∧
    (processStem 10 "clip"
        ⟨"complete", [⟨0, 5, "hello again", "SPEAKER_00", none⟩], none, none,
          [], [], false, "clip.wav", some ⟨2024, 1, 1, 12, 0, 0⟩, none, 1⟩
        (some ⟨"microphone", "clip.wav", ⟨2024, 1, 1, 12, 0, 0⟩, "curator_synced",
          "complete", [], [], none, none, none, none, none,
          some "2024/01/01/12-00-00.json", none⟩)
        ⟨false, true, true, [⟨"2024/01/01", "12-00-00.json", "clip.wav"⟩], []⟩
        ⟨2024, 1, 1, 12, 30, 0⟩).fs.marker = true := by
  decide

/-- C4 (amended): a previously synced clip is treated as unsynced and
republished exactly when the synced marker is absent; when the marker is
still present the cycle republishes nothing (the curator tree, pending tree
and marker are untouched and the status is just set back to curator_synced),
regardless of any file modification times, which the orchestrator never
reads. -/
theorem claim_C4 :
    ∀ (mp : ℚ) (stem : String) (d : TData) (e : JobEntry) (fs : StemFS) (now : DT),
      e.status = "curator_synced" →
      determine_status d = "complete" →
      ((fs.marker = true →
        (processStem mp stem d (some e) fs now).entry.status = "curator_synced" ∧
        (processStem mp stem d (some e) fs now).fs.curator = fs.curator ∧
        (processStem mp stem d (some e) fs now).fs.pending = fs.pending ∧
        (processStem mp stem d (some e) fs now).fs.marker = true) ∧
      (fs.marker = false → curatorFullText d.segments ≠ "" →
        (processStem mp stem d (some e) fs now).entry.status = "curator_synced" ∧
        (processStem mp stem d (some e) fs now).fs.marker = true ∧
        (∃ p, (processStem mp stem d (some e) fs now).entry.curatorPath = some p) ∧
        (∃ f, f ∈ (processStem mp stem d (some e) fs now).fs.curator ∧
          f.audioPath = d.file))) := by
  intro mp stem d e fs now he hst
  have hns : ∀ e2, (some e : Option JobEntry) = some e2 →
      e2.status ≠ determine_status d := by
    intro e2 he2 hc
    rw [Option.some.injEq] at he2
    rw [← he2, he] at hc
    rw [hst] at hc
    exact absurd hc.symm (by decide)
  rw [processStem_not_skip mp stem d (some e) fs now hns]
  unfold stepActions
  have hal := audioLifecycle_preserves mp stem d
    (build_job_entry stem d (some e) fs.playbackWav now)
    ((some e : Option JobEntry).map (fun e => e.status)) fs
  have halfire : audioLifecycle mp stem d
      (build_job_entry stem d (some e) fs.playbackWav now)
      ((some e : Option JobEntry).map (fun e => e.status)) fs
      = (build_job_entry stem d (some e) fs.playbackWav now, fs) := by
    unfold audioLifecycle
    rw [if_neg ?hc]
    case hc =>
      intro hcond
      rcases hcond.2 with h | h | h
      · simp only [Option.map_some', Option.some.injEq] at h
        rw [he] at h
        exact absurd h (by decide)
      · simp only [Option.map_some', Option.some.injEq] at h
        rw [he] at h
        exact absurd h (by decide)
      · simp at h
  rw [halfire]
  constructor
  · intro hmk
    unfold curatorGate
    rw [if_pos (by rw [build_job_entry_status]; exact hst)]
    rw [if_neg (by rw [hmk]; decide)]
    exact ⟨rfl, rfl, rfl, hmk⟩
  · intro hmk htext
    unfold curatorGate
    rw [if_pos (by rw [build_job_entry_status]; exact hst)]
    rw [if_pos hmk]
    obtain ⟨hmk2, ⟨p, hp⟩, ⟨f, hfmem, hfa⟩⟩ := sync_some d now fs.curator fs.pending fs.marker htext
    cases hsync : sync_to_curator d now fs.curator fs.pending fs.marker with
    | mk path cur pend mk3 =>
      rw [hsync] at hmk2 hp hfmem
      simp only at hmk2 hp hfmem
      rw [hp]
      exact ⟨rfl, hmk2, ⟨p, rfl⟩, ⟨f, hfmem, hfa⟩⟩

/-- C4 witness: a rewritten transcript with the marker still present is not
republished; the same state with the marker deleted is republished. -/
theorem claim_C4_witness :
    ((10 : ℚ) ≤ 10 ∨ True) ∧
    (processStem 10 "clip"
        ⟨"complete", [⟨0, 5, "hi", "SPEAKER_00", none⟩], none, none, [], [],
          false, "clip.wav", some ⟨2024, 1, 1, 12, 0, 0⟩, none, 1⟩
        (some ⟨"microphone", "clip.wav", ⟨2024, 1, 1, 12, 0, 0⟩, "curator_synced",
          "complete", [], [], none, none, none, none, none, none, none⟩)
        ⟨false, false, false, [], []⟩ ⟨2024, 1, 1, 12, 30, 0⟩).entry.status
      = "curator_synced" ∧
    (processStem 10 "clip"
        ⟨"complete", [⟨0, 5, "hi", "SPEAKER_00", none⟩], none, none, [], [],
          false, "clip.wav", some ⟨2024, 1, 1, 12, 0, 0⟩, none, 1⟩
        (some ⟨"microphone", "clip.wav", ⟨2024, 1, 1, 12, 0, 0⟩, "curator_synced",
          "complete", [], [], none, none, none, none, none, none, none⟩)
        ⟨false, false, false, [], []⟩ ⟨2024, 1, 1, 12, 30, 0⟩).fs.marker = true := by
  have h := claim_C4 10 "clip"
      ⟨"complete", [⟨0, 5, "hi", "SPEAKER_00", none⟩], none, none, [], [],
        false, "clip.wav", some ⟨2024, 1, 1, 12, 0, 0⟩, none, 1⟩
      ⟨"microphone", "clip.wav", ⟨2024, 1, 1, 12, 0, 0⟩, "curator_synced",
        "complete", [], [], none, none, none, none, none, none, none⟩
      ⟨false, false, false, [], []⟩ ⟨2024, 1, 1, 12, 30, 0⟩
      rfl (by decide)
  have h2 := h.2 rfl (by decide)
  exact ⟨Or.inr trivial, h2.1, h2.2.1⟩

/-- C1 counterexample: a job that reaches complete with no marker present is
not published when the transcript text is empty: sync_to_curator returns
None before writing, so no curator file appears, no marker is created and
the status stays complete. -/
theorem claim_C1_counterexample :
    (processStem 10 "clip" ⟨"complete", [], none, none, [], [], false,
        "c1.wav", some ⟨2024, 1, 1, 12, 0, 0⟩, none, 0⟩
      (some ⟨"microphone", "c1.wav", ⟨2024, 1, 1, 12, 0, 0⟩, "processing",
        "", [], [], none, none, none, none, none, none, none⟩)
      ⟨false, false, false, [], []⟩ ⟨2024, 1, 1, 12, 30, 0⟩).entry.status
      = "complete" ∧
    (processStem 10 "clip" ⟨"complete", [], none, none, [], [], false,
        "c1.wav", some ⟨2024, 1, 1, 12, 0, 0⟩, none, 0⟩
      (some ⟨"microphone", "c1.wav", ⟨2024, 1, 1, 12, 0, 0⟩, "processing",
        "", [], [], none, none, none, none, none, none, none⟩)
      ⟨false, false, false, [], []⟩ ⟨2024, 1, 1, 12, 30, 0⟩).fs.marker = false ∧
    (processStem 10 "clip" ⟨"complete", [], none, none, [], [], false,
        "c1.wav", some ⟨2024, 1, 1, 12, 0, 0⟩, none, 0⟩
      (some ⟨"microphone", "c1.wav", ⟨2024, 1, 1, 12, 0, 0⟩, "processing",
        "", [], [], none, none, none, none, none, none, none⟩)
      ⟨false, false, false, [], []⟩ ⟨2024, 1, 1, 12, 30, 0⟩).fs.curator = [] := by
  decide

/-- C1 (amended): when a job's status reaches complete in a cycle with no
synced marker present and the transcript converts to non-empty text, that
same cycle publishes a curator file recording the transcript's audio
filename, creates the synced marker, sets the job status to curator_synced
with stages.curator_synced stamped and a curator path recorded; when the
chosen target name already exists the published name collision-appends the
least free counter, which never collides with an existing name. -/
theorem claim_C1 :
    (∀ (mp : ℚ) (stem : String) (d : TData) (existing : Option JobEntry)
       (fs : StemFS) (now : DT),
       determine_status d = "complete" →
       (∀ e, existing = some e → e.status ≠ "complete") →
       fs.marker = false →
       curatorFullText d.segments ≠ "" →
       (processStem mp stem d existing fs now).entry.status = "curator_synced" ∧
       (processStem mp stem d existing fs now).fs.marker = true ∧
       (processStem mp stem d existing fs now).entry.stages_curator_synced
         = some now ∧
       (∃ p, (processStem mp stem d existing fs now).entry.curatorPath = some p) ∧
       (∃ f, f ∈ (processStem mp stem d existing fs now).fs.curator ∧
         f.audioPath = d.file)) ∧
    (∀ (tp sfx : String) (names : List String),
       names.contains (tp ++ sfx ++ ".json") = true →
       1 ≤ freshCounter tp sfx names ∧
       names.contains (counterName tp sfx (freshCounter tp sfx names)) = false) := by
  constructor
  · intro mp stem d ex fs now hst hnold hmk htext
    have hns : ∀ e, ex = some e → e.status ≠ determine_status d := by
      intro e he hc
      exact hnold e he (by rw [hc, hst])
    rw [processStem_not_skip mp stem d ex fs now hns]
    unfold stepActions
    have hal := audioLifecycle_preserves mp stem d
      (build_job_entry stem d ex fs.playbackWav now)
      (ex.map (fun e => e.status)) fs
    have hstat : (audioLifecycle mp stem d
        (build_job_entry stem d ex fs.playbackWav now)
        (ex.map (fun e => e.status)) fs).1.status = "complete" := by
      rw [hal.1, build_job_entry_status]
      exact hst
    unfold curatorGate
    rw [if_pos hstat]
    rw [if_pos (by rw [hal.2.1]; exact hmk)]
    rw [hal.2.2.1, hal.2.2.2]
    obtain ⟨hmk2, ⟨p, hp⟩, ⟨f, hfmem, hfa⟩⟩ :=
      sync_some d now fs.curator fs.pending
        ((audioLifecycle mp stem d (build_job_entry stem d ex fs.playbackWav now)
          (ex.map (fun e => e.status)) fs).2.marker) htext
    cases hsync : sync_to_curator d now fs.curator fs.pending
        ((audioLifecycle mp stem d (build_job_entry stem d ex fs.playbackWav now)
          (ex.map (fun e => e.status)) fs).2.marker) with
    | mk path cur pend mk3 =>
      rw [hsync] at hmk2 hp hfmem
      simp only at hmk2 hp hfmem
      rw [hp]
      exact ⟨rfl, hmk2, rfl, ⟨p, rfl⟩, ⟨f, hfmem, hfa⟩⟩
  · intro tp sfx names _
    exact freshCounter_spec tp sfx names

/-- C1 witness: a transcript completing with real text, no marker and no
previous entry is published with the marker created and the stage stamped;
the collision counter picks a fresh name when the base name is taken. -/
theorem claim_C1_witness :
    ((processStem 10 "w" ⟨"complete", [⟨0, 5, "hello", "SPEAKER_00", none⟩],
        none, none, [], [], false, "w.wav", some ⟨2024, 1, 1, 12, 0, 0⟩, none, 0⟩
      none ⟨false, false, false, [], []⟩ ⟨2024, 1, 1, 12, 30, 0⟩).entry.status
      = "curator_synced" ∧
     (processStem 10 "w" ⟨"complete", [⟨0, 5, "hello", "SPEAKER_00", none⟩],
        none, none, [], [], false, "w.wav", some ⟨2024, 1, 1, 12, 0, 0⟩, none, 0⟩
      none ⟨false, false, false, [], []⟩ ⟨2024, 1, 1, 12, 30, 0⟩).fs.marker
      = true) ∧
    (["12-00-00.json"].contains ("12-00-00" ++ "" ++ ".json") = true ∧
     1 ≤ freshCounter "12-00-00" "" ["12-00-00.json"] ∧
     ["12-00-00.json"].contains
       (counterName "12-00-00" "" (freshCounter "12-00-00" "" ["12-00-00.json"]))
       = false) := by
  have h := claim_C1.1 10 "w" ⟨"complete", [⟨0, 5, "hello", "SPEAKER_00", none⟩],
      none, none, [], [], false, "w.wav", some ⟨2024, 1, 1, 12, 0, 0⟩, none, 0⟩
      none ⟨false, false, false, [], []⟩ ⟨2024, 1, 1, 12, 30, 0⟩
      (by decide) (fun e he => Option.noConfusion he) rfl (by decide)
  have h2 := claim_C1.2 "12-00-00" "" ["12-00-00.json"] (by decide)
  exact ⟨⟨h.1, h.2.1⟩, by decide, h2.1, h2.2⟩

end OpenClaw
